import Mathlib

/-!
# Verification of the BusTub buffer-pool excerpt

Shallow embedding of `src/buffer/lru_replacer.cpp` (both versions of the
LRU/clock replacer that appear in the file, plus `buffer_pool_manager.cpp`)
and of the row-major matrix utility `src/include/primer/p0_starter.h`.

Machine integers of the source (`page_id_t`, `frame_id_t`, `int` pin counts,
the tri-state entries of `lru_frame_list`) are modelled as `Int`; `size_t`
counters as `Nat`.  The C++ sentinel `-1` for "no frame obtained yet"
(`replace_id`) and the `bool Victim(frame_id_t*)` out-parameter protocol are
rendered as `Option Nat`.  Page bytes are `List Nat` of length `pageSize`
(the spec's fixed configuration constant).
-/

namespace Bustub

/-- The page size: per the spec, a fixed configuration constant shared by all
components.  Its exact value is irrelevant to every property below. -/
def pageSize : Nat := 4

/-- A zero-filled page buffer (the result of `Page::ResetMemory`). -/
def zeroData : List Nat := List.replicate pageSize 0

/-- `INVALID_PAGE_ID` from the source (`common/config.h`): -1. -/
def INVALID_PAGE_ID : Int := -1

/-! ## Association lists

`std::unordered_map` (the page table, and the persisted store of the disk
collaborator) is modelled as an association list with unique keys:
`alistInsert` is `operator[] =` (assign if present, insert otherwise),
`alistErase` is `erase`, `alistLookup` is `find`. -/

def alistLookup {α : Type} : List (Int × α) → Int → Option α
  | [], _ => none
  | (k, v) :: t, k2 => if k = k2 then some v else alistLookup t k2

def alistInsert {α : Type} : List (Int × α) → Int → α → List (Int × α)
  | [], k, v => [(k, v)]
  | (k1, v1) :: t, k, v =>
      if k1 = k then (k, v) :: t else (k1, v1) :: alistInsert t k v

def alistErase {α : Type} (t : List (Int × α)) (k : Int) : List (Int × α) :=
  t.filter (fun kv => kv.1 != k)

/-! ## The replacer (`LRUReplacer`, a clock / second-chance tracker)

State as in the source: `lru_frame_list` holds one entry per frame,
`-1` = unavailable, `1` = evictable-fresh, `0` = evictable-stale;
`track_size` counts evictable frames; `list_pointer` is the clock cursor. -/

structure LRUReplacer where
  track_size : Nat
  list_pointer : Nat
  manager_size : Nat
  lru_frame_list : List Int
deriving Repr, DecidableEq

/-- The `LRUReplacer(size_t num_pages)` constructor. -/
def LRUReplacer.new (num_pages : Nat) : LRUReplacer :=
  { track_size := 0
    list_pointer := 0
    manager_size := num_pages
    lru_frame_list := List.replicate num_pages (-1) }

/-- The scan loop of `LRUReplacer::Victim`: each iteration advances the
cursor by one (mod `n`), demotes a fresh (`1`) entry to stale (`0`) and
continues, or selects the first stale (`0`) entry (marking it `-1`).
`fuel` is the total number of loop iterations the bound allows. -/
def victimLoop (n : Nat) : Nat → List Int → Nat → List Int × Nat × Option Nat
  | 0, l, ptr => (l, ptr, none)
  | fuel + 1, l, ptr =>
      let p := (ptr + 1) % n
      if l.getD p (-1) = 1 then victimLoop n fuel (l.set p 0) p
      else if l.getD p (-1) = 0 then (l.set p (-1), p, some p)
      else victimLoop n fuel l p

/-- Body shared by the two versions of `LRUReplacer::Victim` in the source;
they differ only in the loop bound (`fuel`). -/
def LRUReplacer.VictimAux (r : LRUReplacer) (fuel : Nat) : LRUReplacer × Option Nat :=
  if 0 < r.track_size then
    match victimLoop r.manager_size fuel r.lru_frame_list r.list_pointer with
    | (l, p, some f) =>
        ({ r with lru_frame_list := l, list_pointer := p,
                  track_size := r.track_size - 1 }, some f)
    | (l, p, none) =>
        ({ r with lru_frame_list := l, list_pointer := p }, none)
  else (r, none)

/-- First version of `LRUReplacer::Victim`: loop `for (i = 0; i <= manager_size; i++)`,
i.e. `manager_size + 1` iterations. -/
def LRUReplacer.VictimV1 (r : LRUReplacer) : LRUReplacer × Option Nat :=
  r.VictimAux (r.manager_size + 1)

/-- Second version of `LRUReplacer::Victim`: loop
`for (i = 0; i <= 2 * manager_size; i++)`, i.e. `2 * manager_size + 1`
iterations.  This is the version the buffer pool manager is modelled with. -/
def LRUReplacer.Victim (r : LRUReplacer) : LRUReplacer × Option Nat :=
  r.VictimAux (2 * r.manager_size + 1)

/-- `LRUReplacer::Pin`: a frame becomes unavailable; if it was evictable
(entry `>= 0`) the entry is set to `-1` and `track_size` decremented. -/
def LRUReplacer.Pin (r : LRUReplacer) (frame_id : Nat) : LRUReplacer :=
  if 0 ≤ r.lru_frame_list.getD frame_id (-1) then
    { r with lru_frame_list := r.lru_frame_list.set frame_id (-1),
             track_size := r.track_size - 1 }
  else r

/-- `LRUReplacer::Unpin`: a frame becomes evictable-fresh; if it was
unavailable (entry `-1`) the entry is set to `1` and `track_size`
incremented. -/
def LRUReplacer.Unpin (r : LRUReplacer) (frame_id : Nat) : LRUReplacer :=
  if r.lru_frame_list.getD frame_id (-1) = -1 then
    { r with lru_frame_list := r.lru_frame_list.set frame_id 1,
             track_size := r.track_size + 1 }
  else r

/-- `LRUReplacer::Size`. -/
def LRUReplacer.Size (r : LRUReplacer) : Nat := r.track_size

/-- Consistency of a replacer state: the list has `manager_size` entries,
every entry is one of the three clock states, and `track_size` counts the
evictable (non `-1`) entries.  Holds for `LRUReplacer.new` and is preserved
by `Pin`, `Unpin` and `Victim` on in-range frames. -/
def LRUReplacer.wf (r : LRUReplacer) : Prop :=
  r.manager_size = r.lru_frame_list.length ∧
  (∀ x ∈ r.lru_frame_list, x = -1 ∨ x = 0 ∨ x = 1) ∧
  r.track_size = (r.lru_frame_list.filter (fun x => x != -1)).length

instance (r : LRUReplacer) : Decidable r.wf := by
  unfold LRUReplacer.wf; infer_instance

/-! ## Pages and the buffer pool manager

The `Page` fields and their initial values are declared in `page.h`, which is
not part of the excerpt; they follow the spec's frame model.  `page_id_t` is
`Int` with `INVALID_PAGE_ID = -1`. -/

structure Page where
  page_id_ : Int
  pin_count_ : Int
  is_dirty_ : Bool
  data_ : List Nat
deriving Repr, DecidableEq

/-- Modelled from the spec: a frame's initial state when created —
"a frame is reset (id=none, dirty=false, pin_count=0, ...) when created"
(`Page`'s field initialisers live in `page.h`, outside the excerpt). -/
def defaultPage : Page :=
  { page_id_ := INVALID_PAGE_ID, pin_count_ := 0, is_dirty_ := false,
    data_ := zeroData }

/-- Modelled from the spec: `Page::ResetMemory` (declared in `page.h`,
outside the excerpt) zeroes the frame's raw byte buffer — "zero the frame's
contents" / "zeroed contents"; it touches no metadata field. -/
def Page.ResetMemory (p : Page) : Page := { p with data_ := zeroData }

/-- The buffer pool manager state.  The disk collaborator of the spec's §6
is folded in: `disk_store_` is the persisted bytes per page id
(`WritePage` = `alistInsert`, `ReadPage` = lookup), and `next_page_id_`
backs `AllocatePage` (modelled from the spec: "returns a fresh unique
identifier"; `DeallocatePage` has no observable effect). -/
structure BufferPoolManager where
  pool_size_ : Nat
  pages_ : List Page
  replacer_ : LRUReplacer
  free_list_ : List Nat
  page_table_ : List (Int × Nat)
  disk_store_ : List (Int × List Nat)
  next_page_id_ : Int
deriving Repr, DecidableEq

/-- The `BufferPoolManager` constructor: fresh pages, fresh replacer, every
frame on the free list (appended in index order, so frame `n-1` is at the
back). -/
def BufferPoolManager.new (pool_size : Nat) : BufferPoolManager :=
  { pool_size_ := pool_size
    pages_ := List.replicate pool_size defaultPage
    replacer_ := LRUReplacer.new pool_size
    free_list_ := List.range pool_size
    page_table_ := []
    disk_store_ := []
    next_page_id_ := 0 }

/-- `pages_[f]` (reads as `defaultPage` out of range; all uses are in range). -/
def BufferPoolManager.pageAt (bpm : BufferPoolManager) (f : Nat) : Page :=
  bpm.pages_.getD f defaultPage

/-- Overwrite `pages_[f]`. -/
def BufferPoolManager.setPage (bpm : BufferPoolManager) (f : Nat) (p : Page) :
    BufferPoolManager :=
  { bpm with pages_ := bpm.pages_.set f p }

/-- `DiskManager::ReadPage`, modelled from the spec's §6: returns the
persisted bytes for `pid`; an id never written reads as a zeroed page. -/
def diskRead (store : List (Int × List Nat)) (pid : Int) : List Nat :=
  (alistLookup store pid).getD zeroData

/-- `BufferPoolManager::FetchPageImpl`.  Returns the updated state and the
frame index of the returned `Page*` (`none` = `nullptr`).  Faithful to the
source order: free list drawn from the *back* (`back()`/`pop_back()`), else
`Victim`; dirty victim written back; page-table insert of the new id then
erase of the old; `ResetMemory` then `ReadPage` then `page_id_ = page_id`;
finally, if the id is now in the table, `replacer_->Pin` and
`pin_count_++`.  Note: neither `is_dirty_` nor `pin_count_` is reset on the
miss path. -/
def BufferPoolManager.FetchPageImpl (bpm : BufferPoolManager) (page_id : Int) :
    BufferPoolManager × Option Nat :=
  if page_id ≠ INVALID_PAGE_ID then
    let step1 : BufferPoolManager :=
      match alistLookup bpm.page_table_ page_id with
      | some _ => bpm
      | none =>
          let obtained : BufferPoolManager × Option Nat :=
            match bpm.free_list_.getLast? with
            | some f => ({ bpm with free_list_ := bpm.free_list_.dropLast }, some f)
            | none =>
                let rv := bpm.replacer_.Victim
                ({ bpm with replacer_ := rv.1 }, rv.2)
          match obtained with
          | (bpm1, none) => bpm1
          | (bpm1, some f) =>
              let old := bpm1.pageAt f
              let bpm2 :=
                if old.is_dirty_ then
                  { bpm1 with disk_store_ := alistInsert bpm1.disk_store_ old.page_id_ old.data_ }
                else bpm1
              let bpm3 := { bpm2 with
                page_table_ := alistErase (alistInsert bpm2.page_table_ page_id f) old.page_id_ }
              bpm3.setPage f
                { (old.ResetMemory) with data_ := diskRead bpm3.disk_store_ page_id,
                                         page_id_ := page_id }
    match alistLookup step1.page_table_ page_id with
    | some f =>
        let p := step1.pageAt f
        (({ step1 with replacer_ := step1.replacer_.Pin f }).setPage f
           { p with pin_count_ := p.pin_count_ + 1 }, some f)
    | none => (step1, none)
  else (bpm, none)

/-- `BufferPoolManager::UnpinPageImpl`.  Faithful to the source: on a
resident page with positive pin count it decrements the count and *assigns*
`is_dirty_ = is_dirty` (it does not OR it in), and notifies the replacer
when the count reaches zero. -/
def BufferPoolManager.UnpinPageImpl (bpm : BufferPoolManager) (page_id : Int)
    (is_dirty : Bool) : BufferPoolManager × Bool :=
  match alistLookup bpm.page_table_ page_id with
  | some f =>
      let p := bpm.pageAt f
      if 0 < p.pin_count_ then
        let p2 : Page := { p with pin_count_ := p.pin_count_ - 1, is_dirty_ := is_dirty }
        let bpm1 := bpm.setPage f p2
        if p2.pin_count_ = 0 then
          ({ bpm1 with replacer_ := bpm1.replacer_.Unpin f }, true)
        else (bpm1, true)
      else (bpm, false)
  | none => (bpm, false)

/-- `BufferPoolManager::FlushPageImpl`: if the id is valid and resident,
write the frame's bytes to the disk collaborator (unconditionally — the
dirty flag is not consulted) and clear `is_dirty_`. -/
def BufferPoolManager.FlushPageImpl (bpm : BufferPoolManager) (page_id : Int) :
    BufferPoolManager × Bool :=
  if page_id ≠ INVALID_PAGE_ID then
    match alistLookup bpm.page_table_ page_id with
    | some f =>
        let p := bpm.pageAt f
        (({ bpm with disk_store_ := alistInsert bpm.disk_store_ page_id p.data_ }).setPage f
           { p with is_dirty_ := false }, true)
    | none => (bpm, false)
  else (bpm, false)

/-- `BufferPoolManager::NewPageImpl`.  Returns the new logical id and the
frame index of the returned handle.  Faithful to the source: free list from
the back, else `Victim` (erasing the victim's old mapping); then
`AllocatePage`, table insert, `ResetMemory`, `pin_count_ = 1`,
`page_id_ = *page_id`.  Note: a dirty victim is *not* written back, the
replacer is *not* notified (`Pin`) for the chosen frame, and `is_dirty_` is
not reset. -/
def BufferPoolManager.NewPageImpl (bpm : BufferPoolManager) :
    BufferPoolManager × Option (Int × Nat) :=
  let obtained : BufferPoolManager × Option Nat :=
    match bpm.free_list_.getLast? with
    | some f => ({ bpm with free_list_ := bpm.free_list_.dropLast }, some f)
    | none =>
        let rv := bpm.replacer_.Victim
        match rv.2 with
        | none => ({ bpm with replacer_ := rv.1 }, none)
        | some f =>
            ({ bpm with replacer_ := rv.1,
                        page_table_ := alistErase bpm.page_table_ (bpm.pageAt f).page_id_ },
             some f)
  match obtained with
  | (bpm1, none) => (bpm1, none)
  | (bpm1, some f) =>
      let pid := bpm1.next_page_id_
      let bpm2 := { bpm1 with next_page_id_ := pid + 1,
                              page_table_ := alistInsert bpm1.page_table_ pid f }
      let p := bpm2.pageAt f
      (bpm2.setPage f { (p.ResetMemory) with pin_count_ := 1, page_id_ := pid },
       some (pid, f))

/-- `BufferPoolManager::DeletePageImpl`.  Faithful to the source: a resident
unpinned page's frame is appended to the free list, the mapping erased, and
only `ResetMemory` is called (`page_id_`, `is_dirty_` and the replacer's
tracker entry are left untouched); `DeallocatePage` (spec §6) has no
observable effect.  A pinned page yields `false` with no state change; a
non-resident id yields `true` with no state change. -/
def BufferPoolManager.DeletePageImpl (bpm : BufferPoolManager) (page_id : Int) :
    BufferPoolManager × Bool :=
  if page_id ≠ INVALID_PAGE_ID then
    match alistLookup bpm.page_table_ page_id with
    | some f =>
        let p := bpm.pageAt f
        if p.pin_count_ = 0 then
          (({ bpm with free_list_ := bpm.free_list_ ++ [f],
                       page_table_ := alistErase bpm.page_table_ page_id }).setPage f
             p.ResetMemory, true)
        else (bpm, false)
    | none => (bpm, true)
  else (bpm, true)

/-- Modelled from the spec: a caller holding a pinned frame handle may
mutate the frame's raw bytes through it ("Exclusively owned by the Buffer
Pool Manager; never aliased outside it without a pin").  This is the
environment's write action, used to build concrete scenarios. -/
def BufferPoolManager.writeData (bpm : BufferPoolManager) (f : Nat)
    (bytes : List Nat) : BufferPoolManager :=
  bpm.setPage f { bpm.pageAt f with data_ := bytes }

/-! ## The row-major matrix utility (`p0_starter.h`)

`RowMatrix<T>` stores `rows * cols` elements row-major; the constructor
clamps negative dimensions to zero and default-initialises every element
(`new T[rows*cols]()`).  The row-pointer array `data_` aliases `linear`, so
the nested-list representation below is exact.  `T()` is `default`. -/

structure RowMatrix (T : Type) where
  rows : Int
  cols : Int
  data_ : List (List T)
deriving Repr, DecidableEq

/-- The `RowMatrix(int r, int c)` constructor (through `Matrix(int r, int c)`:
`rows = r >= 0 ? r : 0`, likewise for `cols`, elements value-initialised). -/
def RowMatrix.new (T : Type) [Inhabited T] (r c : Int) : RowMatrix T :=
  let rows : Int := if 0 ≤ r then r else 0
  let cols : Int := if 0 ≤ c then c else 0
  { rows := rows, cols := cols,
    data_ := List.replicate rows.toNat (List.replicate cols.toNat default) }

/-- `RowMatrix::GetElem`: bounds-guarded read; out of range returns `T()`. -/
def RowMatrix.GetElem {T : Type} [Inhabited T] (m : RowMatrix T) (i j : Int) : T :=
  if 0 ≤ i ∧ i < m.rows ∧ 0 ≤ j ∧ j < m.cols then
    (m.data_.getD i.toNat []).getD j.toNat default
  else default

/-- `RowMatrix::SetElem`: bounds-guarded write; out of range only prints a
diagnostic, mutating nothing. -/
def RowMatrix.SetElem {T : Type} (m : RowMatrix T) (i j : Int) (val : T) :
    RowMatrix T :=
  if 0 ≤ i ∧ i < m.rows ∧ 0 ≤ j ∧ j < m.cols then
    { m with data_ := m.data_.set i.toNat ((m.data_.getD i.toNat []).set j.toNat val) }
  else m

/-! ## Concrete scenarios for the claims about divergent behaviour -/

/-- Scenario for C1: capacity 1.  A fresh page (id 0) is created, bytes of
sevens are written through the pinned handle, and the page is unpinned with
`is_dirty = true`.  Frame 0 is now dirty and evictable, the free list is
empty. -/
def c1state : BufferPoolManager :=
  ((((BufferPoolManager.new 1).NewPageImpl).1.writeData 0
      (List.replicate pageSize 7)).UnpinPageImpl 0 true).1

/-- Scenario for C2: capacity 1.  Page 0 is created, unpinned (frame 0
becomes evictable-fresh), deleted (the frame returns to the free list, but
`DeletePageImpl` never tells the replacer), then `NewPageImpl` reuses frame
0 from the free list with pin count 1 (without telling the replacer
either). -/
def c2state : BufferPoolManager :=
  (((((BufferPoolManager.new 1).NewPageImpl).1.UnpinPageImpl 0 false).1.DeletePageImpl
      0).1.NewPageImpl).1

/-- Scenario for C3: capacity 1.  Page 0 is created, written, unpinned with
`is_dirty = true`, then fetched again: frame 0 is resident, pinned once,
and its dirty flag is set. -/
def c3state : BufferPoolManager :=
  (((((BufferPoolManager.new 1).NewPageImpl).1.writeData 0
      (List.replicate pageSize 7)).UnpinPageImpl 0 true).1.FetchPageImpl 0).1

/-- Scenario for C5: identical construction to `c1state` (capacity 1, frame
0 dirty and evictable, free list empty). -/
def c5state : BufferPoolManager :=
  ((((BufferPoolManager.new 1).NewPageImpl).1.writeData 0
      (List.replicate pageSize 7)).UnpinPageImpl 0 true).1

/-- Scenario for C6: capacity 1.  Page 0 is created and unpinned with
`is_dirty = true`: frame 0 is resident, pin count 0, dirty, tracker entry
`1`. -/
def c6state : BufferPoolManager :=
  (((BufferPoolManager.new 1).NewPageImpl).1.UnpinPageImpl 0 true).1

/-- Tracker state for C4's counterexample: three frames, frame 0 unpinned
(evictable-fresh), frames 1 and 2 unavailable, cursor at 0 — reachable from
`LRUReplacer.new 3` by a single `Unpin 0`. -/
def c4replacer : LRUReplacer := (LRUReplacer.new 3).Unpin 0

/-- Scenario for C9's witness: capacity 1; page 0 created, bytes of sevens
written through the pinned handle, unpinned with `is_dirty = true`. -/
def c9state : BufferPoolManager :=
  ((((BufferPoolManager.new 1).NewPageImpl).1.writeData 0
      (List.replicate pageSize 7)).UnpinPageImpl 0 true).1

/-! ## Claim theorems on the concrete scenarios -/

/-- C1: REFUTED.  In `c1state` the free list is empty and frame 0 is dirty
(holding page 0 whose bytes are sevens), so `NewPageImpl` obtains its frame
by evicting that victim — yet afterwards the storage collaborator holds
nothing at all for page 0: `NewPageImpl`'s eviction path, unlike
`FetchPageImpl`'s, never writes the dirty victim back, and the committed
modification is silently lost. -/
theorem newPageImpl_discards_dirty_victim_bytes :
    (c1state.pageAt 0).is_dirty_ = true ∧
    (c1state.pageAt 0).page_id_ = 0 ∧
    (c1state.pageAt 0).data_ = List.replicate pageSize 7 ∧
    c1state.free_list_ = [] ∧
    (c1state.NewPageImpl).2 = some (1, 0) ∧
    alistLookup (c1state.NewPageImpl).1.disk_store_ 0 = none := by
  decide

/-- C2: REFUTED.  In the reachable state `c2state`, frame 0 has pin count 1
yet its tracker entry is still `1` (evictable-fresh, not unavailable), and
`Victim` selects it; a subsequent `FetchPageImpl` of a different page
actually steals the pinned frame, leaving it with pin count 2 shared by two
unrelated holders. -/
theorem victim_selects_pinned_frame :
    (c2state.pageAt 0).pin_count_ = 1 ∧
    c2state.replacer_.lru_frame_list.getD 0 (-1) = 1 ∧
    (c2state.replacer_.Victim).2 = some 0 ∧
    (c2state.FetchPageImpl 5).2 = some 0 ∧
    ((c2state.FetchPageImpl 5).1.pageAt 0).pin_count_ = 2 := by
  decide

/-- C3: REFUTED on the monotonicity conjunct.  In `c3state` frame 0 is
dirty with pin count 1; `UnpinPageImpl 0 false` succeeds, decrements the
pin count to 0, and *clears* the dirty flag (`is_dirty_ = is_dirty` is an
assignment, not an OR), so the pending modification would never be written
back. -/
theorem unpinPageImpl_clears_dirty_flag :
    (c3state.pageAt 0).is_dirty_ = true ∧
    (c3state.pageAt 0).pin_count_ = 1 ∧
    (c3state.UnpinPageImpl 0 false).2 = true ∧
    ((c3state.UnpinPageImpl 0 false).1.pageAt 0).pin_count_ = 0 ∧
    ((c3state.UnpinPageImpl 0 false).1.pageAt 0).is_dirty_ = false := by
  decide

/-- C5: REFUTED.  `NewPageImpl` on `c5state` installs the fresh page 1 into
the reused victim frame 0, but the frame's dirty flag is still `true`
immediately after the install: neither `NewPageImpl` nor `FetchPageImpl`'s
miss path ever resets `is_dirty_`, so the flag can be true although the
resident page was never modified since it was installed. -/
theorem new_page_keeps_stale_dirty_flag :
    (c5state.NewPageImpl).2 = some (1, 0) ∧
    ((c5state.NewPageImpl).1.pageAt 0).page_id_ = 1 ∧
    ((c5state.NewPageImpl).1.pageAt 0).pin_count_ = 1 ∧
    ((c5state.NewPageImpl).1.pageAt 0).is_dirty_ = true := by
  decide

/-- C6: REFUTED on the reset conjunct.  `DeletePageImpl 0` on `c6state`
succeeds, removes the mapping and returns frame 0 to the free list with pin
count 0 — but the frame's logical id is still 0 (not "none"), its dirty
flag is still set, and its tracker entry is still `1` (evictable, not
unavailable): only the byte buffer is reset. -/
theorem deletePageImpl_leaves_frame_metadata :
    (c6state.DeletePageImpl 0).2 = true ∧
    alistLookup (c6state.DeletePageImpl 0).1.page_table_ 0 = none ∧
    (c6state.DeletePageImpl 0).1.free_list_ = [0] ∧
    ((c6state.DeletePageImpl 0).1.pageAt 0).pin_count_ = 0 ∧
    ((c6state.DeletePageImpl 0).1.pageAt 0).page_id_ = 0 ∧
    ((c6state.DeletePageImpl 0).1.pageAt 0).is_dirty_ = true ∧
    (c6state.DeletePageImpl 0).1.replacer_.lru_frame_list.getD 0 (-1) = 1 := by
  decide

/-- C4 counterexample: the first version of `Victim` (loop bound
`i <= manager_size`, i.e. `capacity + 1` iterations) returns failure on
`c4replacer` although `Size` is 1: the scan spends two iterations on the
unavailable frames 1 and 2, demotes frame 0 on its third, and runs out of
fuel before revisiting it. -/
theorem victimV1_false_negative :
    (c4replacer.Size = 1 ∧ (c4replacer.VictimV1).2 = none) ∧
    c4replacer.wf := by
  decide

/-- C8 counterexample: on a fresh pool of capacity 2 the free list is
`[0, 1]` (front = 0, the earliest-added free frame), yet `NewPageImpl`
installs the new page in frame 1 — the source pops `free_list_.back()`,
the most recently added frame, not the front. -/
theorem newPageImpl_takes_back_of_free_list :
    (BufferPoolManager.new 2).free_list_ = [0, 1] ∧
    ((BufferPoolManager.new 2).NewPageImpl).2 = some (0, 1) := by
  decide

/-! ## The second `Victim` never misses an evictable frame (C4)

The clock scan visits every frame once within `manager_size` steps; a fresh
frame met on the way is demoted and will be selected when the cursor returns
to it, at most `manager_size` steps later.  So `2 * manager_size + 1` loop
iterations always suffice — formalised through `victimLoop_finds_zero` (a
stale frame at cyclic distance `d` is reached within `d + 1` steps) and
`victimLoop_finds_one` (a fresh frame at distance `d` yields a victim within
`d + 1 + manager_size` steps). -/

theorem getD_set_same {α : Type} (l : List α) (p : Nat) (v d : α)
    (h : p < l.length) : (l.set p v).getD p d = v := by
  induction l generalizing p with
  | nil => simp at h
  | cons a t ih =>
    cases p with
    | zero => rfl
    | succ p => exact ih p (by simpa using h)

theorem getD_set_other {α : Type} (l : List α) (p q : Nat) (v d : α)
    (h : p ≠ q) : (l.set p v).getD q d = l.getD q d := by
  induction l generalizing p q with
  | nil => rfl
  | cons a t ih =>
    cases p with
    | zero =>
      cases q with
      | zero => exact absurd rfl h
      | succ q => rfl
    | succ p =>
      cases q with
      | zero => rfl
      | succ q => exact ih p q (by omega)

theorem exists_getD_of_mem {α : Type} (l : List α) (x d : α) (h : x ∈ l) :
    ∃ q, q < l.length ∧ l.getD q d = x := by
  induction l with
  | nil => cases h
  | cons a t ih =>
    rcases List.mem_cons.mp h with rfl | h2
    · exact ⟨0, by simp, rfl⟩
    · obtain ⟨q, hq, hgd⟩ := ih h2
      exact ⟨q + 1, by simpa using Nat.succ_lt_succ hq, hgd⟩

/-- Advancing the cursor one step: the frame that was at cyclic distance
`d + 1` from the old cursor position is at distance `d` from the new one. -/
theorem mod_step_index (ptr d n : Nat) :
    ((ptr + 1) % n + 1 + d) % n = (ptr + 1 + (d + 1)) % n := by
  rw [Nat.add_assoc, Nat.mod_add_mod]
  congr 1
  omega

/-- Every index `q < n` lies at some cyclic distance `d < n` from the
position the cursor will inspect next. -/
theorem cyclic_dist (n a q : Nat) (hn : 0 < n) (hq : q < n) :
    ∃ d, d < n ∧ (a + 1 + d) % n = q := by
  have h1 : (a + 1) % n < n := Nat.mod_lt _ hn
  refine ⟨(q + n - (a + 1) % n) % n, Nat.mod_lt _ hn, ?_⟩
  have hb : (a + 1) % n ≤ q + n := by omega
  rw [Nat.add_mod_mod, ← Nat.mod_add_mod, Nat.add_sub_cancel' hb,
    Nat.add_mod_right]
  exact Nat.mod_eq_of_lt hq

/-- If some frame at cyclic distance `d` from the next inspected position is
stale (`0`), the scan selects a victim within `d + 1` iterations. -/
theorem victimLoop_finds_zero (n : Nat) :
    ∀ (d fuel : Nat) (l : List Int) (ptr : Nat),
      l.length = n → d < n →
      l.getD ((ptr + 1 + d) % n) (-1) = 0 →
      d + 1 ≤ fuel →
      (victimLoop n fuel l ptr).2.2.isSome = true := by
  intro d
  induction d with
  | zero =>
    intro fuel l ptr hlen _ h0 hfuel
    match fuel, hfuel with
    | fuel + 1, _ =>
      unfold victimLoop
      rw [if_neg (by rw [h0]; decide), if_pos h0]
      rfl
  | succ d ih =>
    intro fuel l ptr hlen hd h0 hfuel
    match fuel, hfuel with
    | fuel + 1, hfuel =>
      unfold victimLoop
      by_cases h1 : l.getD ((ptr + 1) % n) (-1) = 1
      · rw [if_pos h1]
        refine ih fuel (l.set ((ptr + 1) % n) 0) ((ptr + 1) % n)
          (by rw [List.length_set, hlen]) (by omega) ?_ (by omega)
        rw [mod_step_index]
        rw [getD_set_other]
        · exact h0
        · intro heq
          rw [heq, h0] at h1
          exact absurd h1 (by decide)
      · rw [if_neg h1]
        by_cases h00 : l.getD ((ptr + 1) % n) (-1) = 0
        · rw [if_pos h00]; rfl
        · rw [if_neg h00]
          refine ih fuel l ((ptr + 1) % n) hlen (by omega) ?_ (by omega)
          rw [mod_step_index]
          exact h0

/-- If some frame at cyclic distance `d` from the next inspected position is
fresh (`1`), the scan selects a victim within `d + 1 + n` iterations: the
fresh frame is demoted when reached and selected one full revolution later
at the latest. -/
theorem victimLoop_finds_one (n : Nat) (hn : 0 < n) :
    ∀ (d fuel : Nat) (l : List Int) (ptr : Nat),
      l.length = n → d < n →
      l.getD ((ptr + 1 + d) % n) (-1) = 1 →
      d + 1 + n ≤ fuel →
      (victimLoop n fuel l ptr).2.2.isSome = true := by
  intro d
  induction d with
  | zero =>
    intro fuel l ptr hlen _ h1 hfuel
    cases fuel with
    | zero => exact absurd hfuel (by omega)
    | succ fuel =>
      unfold victimLoop
      rw [if_pos h1]
      refine victimLoop_finds_zero n (n - 1) fuel
        (l.set ((ptr + 1) % n) 0) ((ptr + 1) % n)
        (by rw [List.length_set, hlen]) (by omega) ?_ (by omega)
      have hidx : ((ptr + 1) % n + 1 + (n - 1)) % n = (ptr + 1) % n := by
        have h2 : (ptr + 1) % n + 1 + (n - 1) = (ptr + 1) % n + n := by omega
        rw [h2, Nat.add_mod_right, Nat.mod_mod]
      rw [hidx]
      exact getD_set_same l ((ptr + 1) % n) 0 (-1)
        (by rw [hlen]; exact Nat.mod_lt _ hn)
  | succ d ih =>
    intro fuel l ptr hlen hd h1 hfuel
    cases fuel with
    | zero => exact absurd hfuel (by omega)
    | succ fuel =>
      unfold victimLoop
      by_cases hp1 : l.getD ((ptr + 1) % n) (-1) = 1
      · rw [if_pos hp1]
        refine victimLoop_finds_zero n (n - 1) fuel
          (l.set ((ptr + 1) % n) 0) ((ptr + 1) % n)
          (by rw [List.length_set, hlen]) (by omega) ?_ (by omega)
        have hidx : ((ptr + 1) % n + 1 + (n - 1)) % n = (ptr + 1) % n := by
          have h2 : (ptr + 1) % n + 1 + (n - 1) = (ptr + 1) % n + n := by omega
          rw [h2, Nat.add_mod_right, Nat.mod_mod]
        rw [hidx]
        exact getD_set_same l ((ptr + 1) % n) 0 (-1)
          (by rw [hlen]; exact Nat.mod_lt _ hn)
      · rw [if_neg hp1]
        by_cases hp0 : l.getD ((ptr + 1) % n) (-1) = 0
        · rw [if_pos hp0]; rfl
        · rw [if_neg hp0]
          refine ih fuel l ((ptr + 1) % n) hlen (by omega) ?_ (by omega)
          rw [mod_step_index]
          exact h1

/-- C4 (amended): for every consistent tracker state with at least one
evictable frame (`Size > 0`), the second version of `Victim` — whose scan
bound is `2 * manager_size + 1` iterations, at least twice the capacity —
returns success, for any mix of unavailable, evictable-fresh and
evictable-stale frames and any cursor position.  (The first version's bound
of `manager_size + 1` iterations admits false negatives; see the
counterexample.) -/
theorem Victim_succeeds_when_evictable (r : LRUReplacer) (hwf : r.wf)
    (hsz : 0 < r.Size) : (r.Victim).2.isSome = true := by
  obtain ⟨hlen, hvals, hcount⟩ := hwf
  have hsz2 : 0 < r.track_size := hsz
  have hfl : 0 < (r.lru_frame_list.filter (fun x => x != -1)).length := by
    rw [← hcount]; exact hsz2
  obtain ⟨x, hxmem⟩ := List.exists_mem_of_length_pos hfl
  obtain ⟨hxl, hxne⟩ := List.mem_filter.mp hxmem
  have hn : 0 < r.manager_size := by
    rw [hlen]
    exact List.length_pos.mpr (List.ne_nil_of_mem hxl)
  obtain ⟨q, hq, hgd⟩ := exists_getD_of_mem r.lru_frame_list x (-1) hxl
  obtain ⟨d, hd, hidx⟩ :=
    cyclic_dist r.manager_size r.list_pointer q hn (by rw [hlen]; exact hq)
  have hsome :
      (victimLoop r.manager_size (2 * r.manager_size + 1)
        r.lru_frame_list r.list_pointer).2.2.isSome = true := by
    rcases hvals x hxl with rfl | rfl | rfl
    · simp at hxne
    · refine victimLoop_finds_zero r.manager_size d _ _ _ hlen.symm hd ?_ (by omega)
      rw [hidx]; exact hgd
    · refine victimLoop_finds_one r.manager_size hn d _ _ _ hlen.symm hd ?_ (by omega)
      rw [hidx]; exact hgd
  unfold LRUReplacer.Victim LRUReplacer.VictimAux
  rw [if_pos hsz2]
  rcases hres : victimLoop r.manager_size (2 * r.manager_size + 1)
      r.lru_frame_list r.list_pointer with ⟨l2, p2, o⟩
  cases o with
  | none => rw [hres] at hsome; simp at hsome
  | some f => rfl

/-- Witness for C4's amended theorem: the tracker reached from a fresh
3-frame tracker by unpinning frame 0 is consistent, has one evictable
frame, and the second `Victim` succeeds on it (the first version fails on
this very state). -/
theorem Victim_succeeds_when_evictable_witness :
    c4replacer.wf ∧ 0 < c4replacer.Size ∧ (c4replacer.Victim).2.isSome = true :=
  ⟨by decide, by decide,
   Victim_succeeds_when_evictable c4replacer (by decide) (by decide)⟩

/-! ## Association-list facts used by the general pool-manager theorems -/

theorem alistLookup_insert_self {α : Type} (t : List (Int × α)) (k : Int)
    (v : α) : alistLookup (alistInsert t k v) k = some v := by
  induction t with
  | nil => simp [alistInsert, alistLookup]
  | cons kv t ih =>
    obtain ⟨k1, v1⟩ := kv
    by_cases h : k1 = k
    · subst h; simp [alistInsert, alistLookup]
    · simp [alistInsert, alistLookup, h, ih]

theorem alistLookup_erase_other {α : Type} (t : List (Int × α)) (k k2 : Int)
    (h : k ≠ k2) : alistLookup (alistErase t k2) k = alistLookup t k := by
  induction t with
  | nil => rfl
  | cons kv t ih =>
    obtain ⟨k1, v1⟩ := kv
    by_cases h1 : k1 = k2
    · have hk : ¬k2 = k := fun he => h he.symm
      simp [alistErase, alistLookup, List.filter_cons, h1, hk] at ih ⊢
      exact ih
    · by_cases h2 : k1 = k
      · simp [alistErase, alistLookup, List.filter_cons, h1, h2, h]
      · simp [alistErase, alistLookup, List.filter_cons, h1, h2] at ih ⊢
        exact ih

theorem alistInsert_of_lookup {α : Type} (t : List (Int × α)) (k : Int)
    (v : α) (h : alistLookup t k = some v) : alistInsert t k v = t := by
  induction t with
  | nil => simp [alistLookup] at h
  | cons kv t ih =>
    obtain ⟨k1, v1⟩ := kv
    by_cases h1 : k1 = k
    · subst h1
      simp [alistLookup] at h
      simp [alistInsert, h]
    · simp [alistLookup, h1] at h
      simp [alistInsert, h1, ih h]

/-- C7: on a valid page id, `DeletePageImpl` of a resident page with nonzero
pin count returns failure with the *entire* pool state (page table, free
list, frames, replacer, disk) literally unchanged, and `DeletePageImpl` of
a non-resident page id returns success as a no-op. -/
theorem deletePage_pinned_fails_absent_noop (bpm : BufferPoolManager)
    (pid : Int) (hpid : pid ≠ INVALID_PAGE_ID) :
    (∀ f, alistLookup bpm.page_table_ pid = some f →
        (bpm.pageAt f).pin_count_ ≠ 0 →
        bpm.DeletePageImpl pid = (bpm, false)) ∧
    (alistLookup bpm.page_table_ pid = none →
        bpm.DeletePageImpl pid = (bpm, true)) := by
  constructor
  · intro f hf hpin
    unfold BufferPoolManager.DeletePageImpl
    rw [if_pos hpid, hf]
    simp [hpin]
  · intro hnone
    unfold BufferPoolManager.DeletePageImpl
    rw [if_pos hpid, hnone]

/-- Witness for C7: capacity 1 with page 0 freshly created and pinned once;
deleting page 0 fails without touching the state, deleting the non-resident
page 5 succeeds without touching the state. -/
theorem deletePage_pinned_fails_absent_noop_witness :
    ((BufferPoolManager.new 1).NewPageImpl).1.DeletePageImpl 0 =
      (((BufferPoolManager.new 1).NewPageImpl).1, false) ∧
    ((BufferPoolManager.new 1).NewPageImpl).1.DeletePageImpl 5 =
      (((BufferPoolManager.new 1).NewPageImpl).1, true) :=
  ⟨(deletePage_pinned_fails_absent_noop ((BufferPoolManager.new 1).NewPageImpl).1
      0 (by decide)).1 0 (by decide) (by decide),
   (deletePage_pinned_fails_absent_noop ((BufferPoolManager.new 1).NewPageImpl).1
      5 (by decide)).2 (by decide)⟩

/-- C8 (amended): when the free list is non-empty, a fetch miss and
`NewPageImpl` both install into the frame at the *back* of the free list
(the most recently added free frame), popping it; the replacement policy is
not consulted for the choice — after `NewPageImpl` the replacer state is
untouched, and after a fetch miss it differs from the original only by the
hit registration `Pin` of that same frame.  (For the fetch conclusion the
chosen frame must not residually carry the requested id, which the source's
insert-then-erase table update would otherwise drop.) -/
theorem miss_obtains_back_of_free_list (bpm : BufferPoolManager) (f : Nat)
    (hfl : bpm.free_list_.getLast? = some f) :
    (∀ pid : Int, pid ≠ INVALID_PAGE_ID →
      alistLookup bpm.page_table_ pid = none →
      (bpm.pageAt f).page_id_ ≠ pid →
      (bpm.FetchPageImpl pid).2 = some f ∧
      (bpm.FetchPageImpl pid).1.replacer_ = bpm.replacer_.Pin f ∧
      (bpm.FetchPageImpl pid).1.free_list_ = bpm.free_list_.dropLast) ∧
    ((bpm.NewPageImpl).2 = some (bpm.next_page_id_, f) ∧
     (bpm.NewPageImpl).1.replacer_ = bpm.replacer_ ∧
     (bpm.NewPageImpl).1.free_list_ = bpm.free_list_.dropLast) := by
  constructor
  · intro pid hpid hnone hold
    have hlook : alistLookup
        (alistErase (alistInsert bpm.page_table_ pid f) (bpm.pageAt f).page_id_)
        pid = some f := by
      rw [alistLookup_erase_other _ _ _ (fun he => hold he.symm),
        alistLookup_insert_self]
    cases hd : (bpm.pageAt f).is_dirty_ with
    | false =>
      refine ⟨?_, ?_, ?_⟩ <;>
        simp only [BufferPoolManager.FetchPageImpl, BufferPoolManager.pageAt,
          BufferPoolManager.setPage, hpid, hnone, hfl, hlook,
          BufferPoolManager.pageAt.eq_def, hd] <;>
        simp [BufferPoolManager.pageAt] at hlook hd ⊢ <;>
        simp [hlook, hd, hpid]
    | true =>
      refine ⟨?_, ?_, ?_⟩ <;>
        simp only [BufferPoolManager.FetchPageImpl, BufferPoolManager.pageAt,
          BufferPoolManager.setPage, hpid, hnone, hfl, hlook,
          BufferPoolManager.pageAt.eq_def, hd] <;>
        simp [BufferPoolManager.pageAt] at hlook hd ⊢ <;>
        simp [hlook, hd, hpid]
  · refine ⟨?_, ?_, ?_⟩ <;>
      simp [BufferPoolManager.NewPageImpl, BufferPoolManager.setPage, hfl]

/-- Witness for C8's amended theorem: the fresh pool of capacity 2 (free
list `[0, 1]`): fetching page 0 and creating a new page both use frame 1,
the back of the free list. -/
theorem miss_obtains_back_of_free_list_witness :
    (((BufferPoolManager.new 2).FetchPageImpl 0).2 = some 1 ∧
     ((BufferPoolManager.new 2).FetchPageImpl 0).1.replacer_
       = (BufferPoolManager.new 2).replacer_.Pin 1 ∧
     ((BufferPoolManager.new 2).FetchPageImpl 0).1.free_list_
       = (BufferPoolManager.new 2).free_list_.dropLast) ∧
    (((BufferPoolManager.new 2).NewPageImpl).2
       = some ((BufferPoolManager.new 2).next_page_id_, 1) ∧
     ((BufferPoolManager.new 2).NewPageImpl).1.replacer_
       = (BufferPoolManager.new 2).replacer_ ∧
     ((BufferPoolManager.new 2).NewPageImpl).1.free_list_
       = (BufferPoolManager.new 2).free_list_.dropLast) :=
  ⟨(miss_obtains_back_of_free_list (BufferPoolManager.new 2) 1 (by decide)).1
      0 (by decide) (by decide) (by decide),
   (miss_obtains_back_of_free_list (BufferPoolManager.new 2) 1 (by decide)).2⟩

theorem pageAt_setPage_same (bpm : BufferPoolManager) (f : Nat) (p : Page)
    (h : f < bpm.pages_.length) : (bpm.setPage f p).pageAt f = p :=
  getD_set_same bpm.pages_ f p defaultPage h

theorem set_getD_self {α : Type} (l : List α) (f : Nat) (d : α)
    (h : f < l.length) : l.set f (l.getD f d) = l := by
  induction l generalizing f with
  | nil => rfl
  | cons a t ih =>
    cases f with
    | zero => rfl
    | succ f =>
      show a :: t.set f (t.getD f d) = a :: t
      rw [ih f (by simpa using h)]

/-- A flush of a resident page whose frame is already clean and whose bytes
already coincide with the persisted bytes changes nothing and succeeds. -/
theorem flushPage_of_flushed (b : BufferPoolManager) (pid : Int) (f : Nat)
    (hpid : pid ≠ INVALID_PAGE_ID)
    (hf : alistLookup b.page_table_ pid = some f)
    (hflen : f < b.pages_.length)
    (hdirty : (b.pageAt f).is_dirty_ = false)
    (hstore : alistLookup b.disk_store_ pid = some (b.pageAt f).data_) :
    b.FlushPageImpl pid = (b, true) := by
  have h1 : b.FlushPageImpl pid =
      (({ b with
            disk_store_ := alistInsert b.disk_store_ pid (b.pageAt f).data_ }).setPage f
         { b.pageAt f with is_dirty_ := false }, true) := by
    unfold BufferPoolManager.FlushPageImpl
    rw [if_pos hpid, hf]
  rw [h1, alistInsert_of_lookup _ _ _ hstore]
  have hpage : { b.pageAt f with is_dirty_ := false } = b.pageAt f := by
    rw [← hdirty]
  rw [hpage]
  show ({ b with pages_ := b.pages_.set f (b.pages_.getD f defaultPage) }, true)
    = (b, true)
  rw [set_getD_self b.pages_ f defaultPage hflen]

/-- C9: for a valid page id, `FlushPageImpl` on a resident page writes the
frame's bytes to the storage collaborator unconditionally (no dirty-flag
hypothesis) and clears the dirty flag; it is idempotent — a second
consecutive flush succeeds and changes nothing at all, so both calls leave
identical persisted bytes and `dirty = false`; and flushing a non-resident
page fails without touching the state. -/
theorem flushPage_unconditional_clear_idempotent (bpm : BufferPoolManager)
    (pid : Int) (hpid : pid ≠ INVALID_PAGE_ID) :
    (alistLookup bpm.page_table_ pid = none →
        bpm.FlushPageImpl pid = (bpm, false)) ∧
    (∀ f, alistLookup bpm.page_table_ pid = some f → f < bpm.pages_.length →
      bpm.FlushPageImpl pid =
        (({ bpm with
              disk_store_ := alistInsert bpm.disk_store_ pid (bpm.pageAt f).data_ }).setPage f
           { bpm.pageAt f with is_dirty_ := false }, true) ∧
      alistLookup (bpm.FlushPageImpl pid).1.disk_store_ pid
        = some (bpm.pageAt f).data_ ∧
      ((bpm.FlushPageImpl pid).1.pageAt f).is_dirty_ = false ∧
      (bpm.FlushPageImpl pid).1.FlushPageImpl pid
        = ((bpm.FlushPageImpl pid).1, true)) := by
  constructor
  · intro hnone
    unfold BufferPoolManager.FlushPageImpl
    rw [if_pos hpid, hnone]
  · intro f hf hflen
    have h1 : bpm.FlushPageImpl pid =
        (({ bpm with
              disk_store_ := alistInsert bpm.disk_store_ pid (bpm.pageAt f).data_ }).setPage f
           { bpm.pageAt f with is_dirty_ := false }, true) := by
      unfold BufferPoolManager.FlushPageImpl
      rw [if_pos hpid, hf]
    have hb1at : (bpm.FlushPageImpl pid).1.pageAt f
        = { bpm.pageAt f with is_dirty_ := false } := by
      rw [h1]
      exact pageAt_setPage_same _ f _ hflen
    have hb1store : alistLookup (bpm.FlushPageImpl pid).1.disk_store_ pid
        = some (bpm.pageAt f).data_ := by
      rw [h1]
      exact alistLookup_insert_self _ _ _
    refine ⟨h1, hb1store, by rw [hb1at], ?_⟩
    refine flushPage_of_flushed (bpm.FlushPageImpl pid).1 pid f hpid ?_ ?_ ?_ ?_
    · rw [h1]; exact hf
    · rw [h1]
      show f < (bpm.pages_.set f _).length
      rw [List.length_set]
      exact hflen
    · rw [hb1at]
    · rw [hb1store, hb1at]

/-- Witness for C9: capacity 1 with page 0 created, written (sevens) and
unpinned dirty; flushing the non-resident page 5 fails, flushing page 0
persists the sevens, clears the flag, and a second flush is a no-op. -/
theorem flushPage_unconditional_clear_idempotent_witness :
    (c9state.FlushPageImpl 5 = (c9state, false)) ∧
    (c9state.FlushPageImpl 0 =
      (({ c9state with
            disk_store_ := alistInsert c9state.disk_store_ 0 (c9state.pageAt 0).data_ }).setPage 0
         { c9state.pageAt 0 with is_dirty_ := false }, true) ∧
     alistLookup (c9state.FlushPageImpl 0).1.disk_store_ 0
       = some (c9state.pageAt 0).data_ ∧
     ((c9state.FlushPageImpl 0).1.pageAt 0).is_dirty_ = false ∧
     (c9state.FlushPageImpl 0).1.FlushPageImpl 0
       = ((c9state.FlushPageImpl 0).1, true)) :=
  ⟨(flushPage_unconditional_clear_idempotent c9state 5 (by decide)).1 (by decide),
   (flushPage_unconditional_clear_idempotent c9state 0 (by decide)).2 0
     (by decide) (by decide)⟩

/-- C10: for any matrix value and any index pair outside the valid range,
`GetElem` returns the default-constructed element and `SetElem` returns the
matrix unchanged. -/
theorem rowMatrix_oob_get_default_set_noop {T : Type} [Inhabited T]
    (m : RowMatrix T) (i j : Int) (val : T)
    (h : ¬(0 ≤ i ∧ i < m.rows ∧ 0 ≤ j ∧ j < m.cols)) :
    m.GetElem i j = default ∧ m.SetElem i j val = m := by
  constructor
  · unfold RowMatrix.GetElem
    rw [if_neg h]
  · unfold RowMatrix.SetElem
    rw [if_neg h]

/-- Witness for C10: on a 2-by-2 integer matrix, reading row 2 (one past
the end) yields the default value 0 and writing there changes nothing. -/
theorem rowMatrix_oob_witness :
    (RowMatrix.new Int 2 2).GetElem 2 0 = default ∧
    (RowMatrix.new Int 2 2).SetElem 2 0 42 = RowMatrix.new Int 2 2 :=
  rowMatrix_oob_get_default_set_noop (RowMatrix.new Int 2 2) 2 0 42 (by decide)

end Bustub
